import Mathlib

/-!
Verification of the pixano core columnar-codec layer
(`pixano/core/arrow_types/{bbox,image,objectAnnotation}.py`).

Python floats and ints are modelled as rationals (ℚ), Python strings as
`String`, Python bytes as `List Nat`, and Python `None` / dynamic values by
the `PyVal` sum type.  In-place mutating methods are modelled as state
transformers `Bbox → Bbox`; a raised exception is modelled by `Option.none`
(or an `Option`-valued result).  The source class `ObjectAnnotation` is
named `ObjAnn` here.
-/

/-- `Bbox` from `bbox.py`: coordinate list, format tag and normalized flag,
stored by `__init__` in this order, with no validation. -/
structure Bbox where
  _coords : List ℚ
  _format : String
  _is_normalized : Bool
deriving DecidableEq, Repr

/-- `Bbox.__init__(xyxy, format, is_normalized=True)`: stores its three
arguments verbatim (`bbox.py` lines 10-24). -/
def Bbox.init (xyxy : List ℚ) (format : String) (is_normalized : Bool) : Bbox :=
  ⟨xyxy, format, is_normalized⟩

/-- `Bbox.from_xyxy(xyxy)` = `Bbox(xyxy, 'xyxy')` with the default
`is_normalized=True`. -/
def Bbox.from_xyxy (xyxy : List ℚ) : Bbox :=
  Bbox.init xyxy "xyxy" true

/-- `Bbox.from_xywh(xywh)` = `Bbox(xywh, 'xywh')` with the default
`is_normalized=True`. -/
def Bbox.from_xywh (xywh : List ℚ) : Bbox :=
  Bbox.init xywh "xywh" true

/-- Modelled from the spec: `pixano.transforms.boxes.xywh_to_xyxy` is
imported by `bbox.py` but its module is not under `src/`.  The spec states
the two coordinate conversions are pure inverses, and its worked example
`[0.1,0.2,0.5,0.6] ↦ [0.1,0.2,0.4,0.4]` fixes them as
`[x, y, w, h] ↦ [x, y, x + w, y + h]`.  Lists of other lengths are
returned unchanged (the spec constrains only 4-element lists). -/
def xywh_to_xyxy : List ℚ → List ℚ
  | [x, y, w, h] => [x, y, x + w, y + h]
  | l => l

/-- Modelled from the spec: `pixano.transforms.boxes.xyxy_to_xywh`, the
inverse conversion `[x1, y1, x2, y2] ↦ [x1, y1, x2 - x1, y2 - y1]` (see
`xywh_to_xyxy`). -/
def xyxy_to_xywh : List ℚ → List ℚ
  | [x1, y1, x2, y2] => [x1, y1, x2 - x1, y2 - y1]
  | l => l

/-- Modelled from the spec: `pixano.transforms.boxes.normalize` is imported
by `bbox.py` but absent from `src/`.  The spec says it rescales coordinates
by dividing by the given dimensions and requires both dimensions positive,
failing otherwise (modelled by `Option.none`).  The x-components are divided
by the width and the y-components by the height. -/
def normalizeCoords (coords : List ℚ) (height width : ℚ) : Option (List ℚ) :=
  if 0 < height ∧ 0 < width then
    match coords with
    | [a, b, c, d] => some [a / width, b / height, c / width, d / height]
    | l => some l
  else Option.none

/-- `Bbox.to_xyxy` (`bbox.py` lines 58-63): converts only when the stored
format is the string `'xywh'`, otherwise returns the stored coordinates. -/
def Bbox.to_xyxy (b : Bbox) : List ℚ :=
  if b._format = "xywh" then xywh_to_xyxy b._coords else b._coords

/-- `Bbox.to_xywh` (`bbox.py` lines 65-70): converts only when the stored
format is the string `'xyxy'`, otherwise returns the stored coordinates. -/
def Bbox.to_xywh (b : Bbox) : List ℚ :=
  if b._format = "xyxy" then xyxy_to_xywh b._coords else b._coords

/-- `Bbox.format_xyxy` (`bbox.py` lines 72-77) mutates `self` in place when
the stored format is `'xywh'`; modelled as a state transformer. -/
def Bbox.format_xyxy (b : Bbox) : Bbox :=
  if b._format = "xywh" then ⟨xywh_to_xyxy b._coords, "xyxy", b._is_normalized⟩ else b

/-- `Bbox.format_xywh` (`bbox.py` lines 79-84) mutates `self` in place when
the stored format is `'xyxy'`; modelled as a state transformer. -/
def Bbox.format_xywh (b : Bbox) : Bbox :=
  if b._format = "xyxy" then ⟨xyxy_to_xywh b._coords, "xywh", b._is_normalized⟩ else b

/-- `Bbox.normalize(height, width)` (`bbox.py` lines 86-87) replaces
`self._coords` with the rescaled coordinates; the format tag and the
normalized flag are left untouched.  `Option.none` models the exception
raised for non-positive dimensions. -/
def Bbox.normalize (b : Bbox) (height width : ℚ) : Option Bbox :=
  (normalizeCoords b._coords height width).map (fun cs => ⟨cs, b._format, b._is_normalized⟩)

example : Bbox.to_xywh (Bbox.init [1/10, 2/10, 5/10, 6/10] "xyxy" true)
    = [1/10, 2/10, 4/10, 4/10] := by
  norm_num [Bbox.to_xywh, Bbox.init, xyxy_to_xywh]

/-- Modelled from the spec: `Pose` (`pose.py` is imported by
`objectAnnotation.py` but absent from `src/`); the spec gives a rotation
component of 9 floats and a translation component of 3 floats, with the
field names visible in the ObjectAnnotation constructor default. -/
structure Pose where
  cam_R_m2c : List ℚ
  cam_t_m2c : List ℚ
deriving DecidableEq, Repr

/-- Modelled from the spec: `CompressedRLE` (`compressedRLE.py` is imported
by `objectAnnotation.py` but absent from `src/`); the spec describes it as
an opaque run-length-encoded mask blob. -/
structure CompressedRLE where
  blob : List Nat
deriving DecidableEq, Repr

/-- A dynamic Python value, covering every value that flows through the
ObjectAnnotation fields and the batch builder: `None`, scalars, plain
lists/dicts, and instances of the codec classes.  Python ints and floats
are both modelled as ℚ. -/
inductive PyVal where
  | pyNone
  | str (s : String)
  | num (x : ℚ)
  | b (bo : Bool)
  | bytes (bs : List Nat)
  | listNum (l : List ℚ)
  | bboxObj (bb : Bbox)
  | poseObj (p : Pose)
  | rleObj (m : CompressedRLE)
  | bboxDict (coords : List ℚ) (isNorm : Bool) (fmt : String)
  | poseDict (r : List ℚ) (t : List ℚ)
  | rleDict (blob : List Nat)
deriving DecidableEq, Repr

/-- The source class `ObjectAnnotation` (`objectAnnotation.py` lines
27-104): fifteen dynamically-typed attributes, assigned by `__init__` in
this order. -/
structure ObjAnn where
  id : PyVal
  view_id : PyVal
  bbox : PyVal
  bbox_source : PyVal
  bbox_confidence : PyVal
  is_group_of : PyVal
  is_difficult : PyVal
  is_truncated : PyVal
  mask : PyVal
  mask_source : PyVal
  area : PyVal
  pose : PyVal
  category_id : PyVal
  category_name : PyVal
  identity : PyVal
deriving DecidableEq, Repr

/-- `ObjectAnnotation.__init__` with every argument passed explicitly: the
method stores its arguments verbatim. -/
def ObjAnn.init (id view_id bbox bbox_source bbox_confidence is_group_of
    is_difficult is_truncated mask mask_source area pose category_id
    category_name identity : PyVal) : ObjAnn :=
  ⟨id, view_id, bbox, bbox_source, bbox_confidence, is_group_of,
   is_difficult, is_truncated, mask, mask_source, area, pose, category_id,
   category_name, identity⟩

/-- The default value of the `bbox` parameter of
`ObjectAnnotation.__init__`: the plain Python list `[0] * 4`
(`objectAnnotation.py` line 52).  Python evaluates a default-argument
expression once, at function definition time, so every call that omits
`bbox` receives this single object; that evaluate-once semantics is
modelled by this top-level constant. -/
def bboxDefault : PyVal := PyVal.listNum [0, 0, 0, 0]

/-- The default value of the `pose` parameter of
`ObjectAnnotation.__init__`: the plain dict
`{"cam_R_m2c": [0] * 9, "cam_t_m2c": [0] * 3}` (`objectAnnotation.py`
lines 61-64), evaluated once at function definition time. -/
def poseDefault : PyVal := PyVal.poseDict (List.replicate 9 0) (List.replicate 3 0)

/-- A call `ObjectAnnotation(id)` that relies on every default argument. -/
def ObjAnn.initDefaults (id : PyVal) : ObjAnn :=
  ObjAnn.init id PyVal.pyNone bboxDefault PyVal.pyNone PyVal.pyNone
    PyVal.pyNone PyVal.pyNone PyVal.pyNone PyVal.pyNone PyVal.pyNone
    PyVal.pyNone poseDefault PyVal.pyNone PyVal.pyNone PyVal.pyNone

/-- The keys of `annotation_list[0].__dict__`: `__init__` assigns exactly
these fifteen attributes, in this order, on every instance. -/
def attrNames : List String :=
  ["id", "view_id", "bbox", "bbox_source", "bbox_confidence", "is_group_of",
   "is_difficult", "is_truncated", "mask", "mask_source", "area", "pose",
   "category_id", "category_name", "identity"]

/-- Python `getattr` restricted to the fifteen ObjectAnnotation attribute
names (the only names the batch builder looks up). -/
def getattr (a : ObjAnn) (s : String) : PyVal :=
  if s = "id" then a.id
  else if s = "view_id" then a.view_id
  else if s = "bbox" then a.bbox
  else if s = "bbox_source" then a.bbox_source
  else if s = "bbox_confidence" then a.bbox_confidence
  else if s = "is_group_of" then a.is_group_of
  else if s = "is_difficult" then a.is_difficult
  else if s = "is_truncated" then a.is_truncated
  else if s = "mask" then a.mask
  else if s = "mask_source" then a.mask_source
  else if s = "area" then a.area
  else if s = "pose" then a.pose
  else if s = "category_id" then a.category_id
  else if s = "category_name" then a.category_name
  else if s = "identity" then a.identity
  else PyVal.pyNone

/-- Modelled from the spec: `Bbox.to_dict`.  The method is called by
`from_list_to_dict` and `ObjectAnnotation.to_dict` but does not appear in
the `Bbox` class under `src/`; per the spec the plain-structure export
mirrors the physical layout field-for-field, and the `BBoxType` layout is
`(coords, is_normalized, format)`. -/
def Bbox.to_dict (bb : Bbox) : PyVal :=
  PyVal.bboxDict bb._coords bb._is_normalized bb._format

/-- Modelled from the spec: `Pose.to_dict`, mirroring the Pose layout. -/
def Pose.to_dict (p : Pose) : PyVal :=
  PyVal.poseDict p.cam_R_m2c p.cam_t_m2c

/-- Modelled from the spec: `CompressedRLE.to_dict`, exporting the opaque
blob. -/
def CompressedRLE.to_dict (m : CompressedRLE) : PyVal :=
  PyVal.rleDict m.blob

/-- Python `value.to_dict()` as used by the batch builder: dispatches to
the codec classes; any other value (None, scalars, plain lists or dicts)
has no `to_dict` method, so the call raises `AttributeError`, modelled by
`Option.none`. -/
def pyToDict : PyVal → Option PyVal
  | PyVal.bboxObj bb => some (Bbox.to_dict bb)
  | PyVal.poseObj p => some (Pose.to_dict p)
  | PyVal.rleObj m => some (CompressedRLE.to_dict m)
  | _ => Option.none

/-- `isinstance(v, tuple(type_mapping.keys()))` in `from_list_to_dict`
(`objectAnnotation.py` line 205): the mapping keys are the codec classes
BBox, Pose, CompressedRLE and ObjectAnnotation; an ObjectAnnotation never
occurs as a field value, so the first three cases suffice. -/
def isCodecVal : PyVal → Bool
  | PyVal.bboxObj _ => true
  | PyVal.poseObj _ => true
  | PyVal.rleObj _ => true
  | _ => false

/-- Discriminant of a `PyVal`, used to model pyarrow type inference. -/
def kindOf : PyVal → Nat
  | PyVal.pyNone => 0
  | PyVal.str _ => 1
  | PyVal.num _ => 2
  | PyVal.b _ => 3
  | PyVal.bytes _ => 4
  | PyVal.listNum _ => 5
  | PyVal.bboxObj _ => 6
  | PyVal.poseObj _ => 7
  | PyVal.rleObj _ => 8
  | PyVal.bboxDict _ _ _ => 9
  | PyVal.poseDict _ _ => 10
  | PyVal.rleDict _ => 11

/-- Recognizer for the Python `None` value. -/
def isPyNone : PyVal → Bool
  | PyVal.pyNone => true
  | _ => false

/-- `pa.array` accepts a cell list when all non-`None` cells have one kind
(`None` becomes a null cell next to any type). -/
def kindsOk (l : List PyVal) : Bool :=
  match l.filter (fun v => !(isPyNone v)) with
  | [] => true
  | x :: xs => xs.all (fun v => kindOf v == kindOf x)

/-- Model of `pa.array(values)` (and, in the codec branch, of
`pa.array(dicts, type=attr_type)` followed by the outer `pa.array`): the
column keeps the values in order; the conversion raises, modelled by
`Option.none`, when the cells mix kinds or contain arbitrary Python
objects (codec instances are only convertible after `to_dict`). -/
def paArray (vs : List PyVal) : Option (List PyVal) :=
  if kindsOk vs && vs.all (fun v => !(isCodecVal v)) then some vs else Option.none

/-- A Python list comprehension whose body may raise: stops at the first
failing element with the whole result failing. -/
def optMap {α β : Type} (f : α → Option β) : List α → Option (List β)
  | [] => some []
  | x :: xs =>
    match f x, optMap f xs with
    | some y, some ys => some (y :: ys)
    | _, _ => Option.none

/-- The body of the attribute loop of
`ObjectAnnotationArray.from_list_to_dict` (`objectAnnotation.py` lines
202-210): gather the attribute values, convert them through `to_dict` when
the first element's value is a codec instance, and build the pyarrow
column. -/
def buildColumn (l : List ObjAnn) (attr : String) : Option (List PyVal) :=
  let vals := l.map (fun a => getattr a attr)
  let conv := if isCodecVal (vals.headD PyVal.pyNone) then optMap pyToDict vals else some vals
  conv.bind paArray

/-- `ObjectAnnotationArray.from_list_to_dict` (`objectAnnotation.py` lines
177-212): an empty input yields an empty mapping; otherwise one column per
attribute of the first element, in `__dict__` order; any raised exception
in a column build aborts the whole call (`Option.none`). -/
def from_list_to_dict (l : List ObjAnn) : Option (List (String × List PyVal)) :=
  if l.length = 0 then some []
  else optMap (fun attr => (buildColumn l attr).map (fun col => (attr, col))) attrNames

/-- The base64 alphabet used by `base64.b64encode`. -/
def b64chars : List Char :=
  "ABCDEFGHIJKLMNOPQRSTUVWXYZabcdefghijklmnopqrstuvwxyz0123456789+/".toList

/-- The base64 digit for a 6-bit value. -/
def b64char (n : Nat) : Char := b64chars.getD n (Char.ofNat 65)

/-- `base64.b64encode(bs).decode("utf-8")` on a byte list (RFC 4648 with
`=` padding). -/
def b64encode : List Nat → String
  | [] => ""
  | [a] =>
    let a := a % 256
    String.mk [b64char (a / 4), b64char (a % 4 * 16)] ++ "=="
  | [a, b] =>
    let a := a % 256
    let b := b % 256
    String.mk [b64char (a / 4), b64char (a % 4 * 16 + b / 16),
      b64char (b % 16 * 4)] ++ "="
  | a :: b :: c :: rest =>
    let a := a % 256
    let b := b % 256
    let c := c % 256
    String.mk [b64char (a / 4), b64char (a % 4 * 16 + b / 16),
      b64char (b % 16 * 4 + c / 64), b64char (c % 64)] ++ b64encode rest

/-- `Image` from `image.py`: optional URI, optional bytes, optional preview
bytes, optional URI prefix (source attribute `uri_prefix`, renamed
`uriPref` here). -/
structure Image where
  _uri : Option String
  _bytes : Option (List Nat)
  _preview_bytes : Option (List Nat)
  uriPref : Option String
deriving DecidableEq, Repr

/-- The path handed to `open` by `Image.open` (`image.py` lines 97-109):
the URI prefix joined with the URI when a prefix is set, the URI alone
otherwise. -/
def Image.openPath (img : Image) (u : String) : String :=
  match img.uriPref with
  | some p => p ++ "/" ++ u
  | Option.none => u

/-- The `Image.bytes` property (`image.py` lines 52-66): stored bytes
first; otherwise the URI is opened and read (`readF` models the
surrounding file system, mapping a path to the bytes a successful read
returns); otherwise `None`. -/
def Image.bytes (img : Image) (readF : String → List Nat) : Option (List Nat) :=
  match img._bytes with
  | some bs => some bs
  | Option.none =>
    match img._uri with
    | some u => some (readF (Image.openPath img u))
    | Option.none => Option.none

/-- The `Image.url` property (`image.py` lines 80-95): base64 data URI of
the resolved content, or `""` when no content resolves. -/
def Image.url (img : Image) (readF : String → List Nat) : String :=
  match Image.bytes img readF with
  | some data => "data:image;base64," ++ b64encode data
  | Option.none => ""

/-- The `Image.preview_url` property (`image.py` lines 68-78): base64 data
URI of the preview bytes.  `self._preview_bytes` is passed straight to
`base64.b64encode`, which raises `TypeError` on `None`; the raise is
modelled by `Option.none`. -/
def Image.preview_url (img : Image) : Option String :=
  match img._preview_bytes with
  | some bs => some ("data:image;base64," ++ b64encode bs)
  | Option.none => Option.none

/-- Storage cell of the `BBoxType` extension struct (`bbox.py` lines
95-108): `(coords, is_normalized, format)`. -/
structure BboxStorage where
  coords : List ℚ
  is_normalized : Bool
  format : String
deriving DecidableEq, Repr

/-- Modelled from the spec: storage cell of `PoseType` (rotation and
translation float lists; `pose.py` is absent from `src/`). -/
structure PoseStorage where
  cam_R_m2c : List ℚ
  cam_t_m2c : List ℚ
deriving DecidableEq, Repr

/-- Modelled from the spec: storage cell of `CompressedRLEType` (an opaque
blob; `compressedRLE.py` is absent from `src/`). -/
structure RLEStorage where
  blob : List Nat
deriving DecidableEq, Repr

/-- One row of the `ObjectAnnotationType` struct layout
(`objectAnnotation.py` lines 112-137).  Every field is declared without
`nullable=False`, so every cell may be null (`Option.none`). -/
structure ObjAnnRow where
  id : Option String
  view_id : Option String
  bbox : Option BboxStorage
  bbox_source : Option String
  bbox_confidence : Option ℚ
  is_group_of : Option Bool
  is_difficult : Option Bool
  is_truncated : Option Bool
  mask : Option RLEStorage
  mask_source : Option String
  area : Option ℚ
  pose : Option PoseStorage
  category_id : Option ℚ
  category_name : Option String
  identity : Option String
deriving DecidableEq, Repr

/-- `cell.as_py()` on a string cell: `None` for a null cell. -/
def cellStr : Option String → PyVal
  | some s => PyVal.str s
  | Option.none => PyVal.pyNone

/-- `cell.as_py()` on a numeric cell. -/
def cellNum : Option ℚ → PyVal
  | some x => PyVal.num x
  | Option.none => PyVal.pyNone

/-- `cell.as_py()` on a boolean cell. -/
def cellBool : Option Bool → PyVal
  | some bo => PyVal.b bo
  | Option.none => PyVal.pyNone

/-- `cell.as_py()` on a `BBoxType` cell: `None` for a null cell, otherwise
a `Bbox` value (the scalar class declared by
`BBoxType.__arrow_ext_scalar_class__`). -/
def cellBbox : Option BboxStorage → PyVal
  | some st => PyVal.bboxObj ⟨st.coords, st.format, st.is_normalized⟩
  | Option.none => PyVal.pyNone

/-- `cell.as_py()` on a `PoseType` cell. -/
def cellPose : Option PoseStorage → PyVal
  | some st => PyVal.poseObj ⟨st.cam_R_m2c, st.cam_t_m2c⟩
  | Option.none => PyVal.pyNone

/-- `cell.as_py()` on a `CompressedRLEType` cell. -/
def cellRLE : Option RLEStorage → PyVal
  | some st => PyVal.rleObj ⟨st.blob⟩
  | Option.none => PyVal.pyNone

/-- `ObjectAnnotationTypeScalar.as_py` (`objectAnnotation.py` lines
153-171): reads the fifteen cells, turning null cells into `None`, and
calls `ObjectAnnotation` positionally with the results. -/
def ObjAnnRow.as_py (r : ObjAnnRow) : ObjAnn :=
  ObjAnn.init (cellStr r.id) (cellStr r.view_id) (cellBbox r.bbox)
    (cellStr r.bbox_source) (cellNum r.bbox_confidence)
    (cellBool r.is_group_of) (cellBool r.is_difficult)
    (cellBool r.is_truncated) (cellRLE r.mask) (cellStr r.mask_source)
    (cellNum r.area) (cellPose r.pose) (cellNum r.category_id)
    (cellStr r.category_name) (cellStr r.identity)

/-! ## Helper lemmas -/

theorem list_len_four {α : Type} {l : List α} (h : l.length = 4) :
    ∃ a b c d, l = [a, b, c, d] := by
  rcases l with _ | ⟨a, _ | ⟨b, _ | ⟨c, _ | ⟨d, _ | ⟨e, t⟩⟩⟩⟩⟩ <;>
    simp_all

theorem optMap_length {α β : Type} (f : α → Option β) (l : List α) :
    ∀ ys, optMap f l = some ys → ys.length = l.length := by
  induction l with
  | nil =>
    intro ys h
    simp only [optMap, Option.some.injEq] at h
    simp [← h]
  | cons x xs ih =>
    intro ys h
    simp only [optMap] at h
    cases hf : f x with
    | none => rw [hf] at h; simp at h
    | some y =>
      rw [hf] at h
      cases hm : optMap f xs with
      | none => rw [hm] at h; simp at h
      | some ys2 =>
        rw [hm] at h
        simp only [Option.some.injEq] at h
        subst h
        simp [ih ys2 hm]

theorem optMap_isSome {α β : Type} (f : α → Option β) (l : List α)
    (h : ∀ a ∈ l, (f a).isSome) : (optMap f l).isSome := by
  induction l with
  | nil => simp [optMap]
  | cons x xs ih =>
    have hx := h x (by simp)
    have ht := ih (fun a ha => h a (by simp [ha]))
    simp only [optMap]
    cases hfx : f x with
    | none => rw [hfx] at hx; simp at hx
    | some y =>
      cases hm : optMap f xs with
      | none => rw [hm] at ht; simp at ht
      | some ys => simp

theorem optMap_pairs_fst {α β : Type} (g : α → Option β) (l : List α) :
    ∀ cols, optMap (fun a => (g a).map (fun c => (a, c))) l = some cols →
      cols.map Prod.fst = l := by
  induction l with
  | nil =>
    intro cols h
    simp only [optMap, Option.some.injEq] at h
    simp [← h]
  | cons x xs ih =>
    intro cols h
    simp only [optMap] at h
    cases hg : g x with
    | none => rw [hg] at h; simp at h
    | some c =>
      rw [hg] at h
      cases hm : optMap (fun a => (g a).map (fun c => (a, c))) xs with
      | none => rw [hm] at h; simp at h
      | some cols2 =>
        rw [hm] at h
        simp only [Option.map_some', Option.some.injEq] at h
        subst h
        simp [ih cols2 hm]

theorem optMap_pairs_col {α β : Type} (g : α → Option β) (l : List α) :
    ∀ cols, optMap (fun a => (g a).map (fun c => (a, c))) l = some cols →
      ∀ p ∈ cols, g p.1 = some p.2 := by
  induction l with
  | nil =>
    intro cols h
    simp only [optMap, Option.some.injEq] at h
    simp [← h]
  | cons x xs ih =>
    intro cols h
    simp only [optMap] at h
    cases hg : g x with
    | none => rw [hg] at h; simp at h
    | some c =>
      rw [hg] at h
      cases hm : optMap (fun a => (g a).map (fun c => (a, c))) xs with
      | none => rw [hm] at h; simp at h
      | some cols2 =>
        rw [hm] at h
        simp only [Option.map_some', Option.some.injEq] at h
        subst h
        intro p hp
        rcases List.mem_cons.mp hp with hp | hp
        · subst hp; exact hg
        · exact ih cols2 hm p hp

theorem optMap_pairs_mem {α β : Type} (g : α → Option β) (l : List α) :
    ∀ cols, optMap (fun a => (g a).map (fun c => (a, c))) l = some cols →
      ∀ a ∈ l, ∃ c, (a, c) ∈ cols ∧ g a = some c := by
  induction l with
  | nil => intro cols _ a ha; simp at ha
  | cons x xs ih =>
    intro cols h a ha
    simp only [optMap] at h
    cases hg : g x with
    | none => rw [hg] at h; simp at h
    | some c =>
      rw [hg] at h
      cases hm : optMap (fun a => (g a).map (fun c => (a, c))) xs with
      | none => rw [hm] at h; simp at h
      | some cols2 =>
        rw [hm] at h
        simp only [Option.map_some', Option.some.injEq] at h
        subst h
        rcases List.mem_cons.mp ha with ha | ha
        · exact ⟨c, by simp [ha], by rw [ha]; exact hg⟩
        · obtain ⟨c2, hmem, hg2⟩ := ih cols2 hm a ha
          exact ⟨c2, by simp [hmem], hg2⟩

theorem paArray_some {vs col : List PyVal} (h : paArray vs = some col) :
    col = vs := by
  unfold paArray at h
  split at h
  · exact (Option.some.injEq _ _ ▸ h).symm
  · simp at h

theorem buildColumn_length {l : List ObjAnn} {attr : String} {col : List PyVal}
    (h : buildColumn l attr = some col) : col.length = l.length := by
  simp only [buildColumn] at h
  split at h
  · cases hm : optMap pyToDict (l.map (fun a => getattr a attr)) with
    | none => rw [hm] at h; simp at h
    | some vs =>
      rw [hm] at h
      simp only [Option.some_bind] at h
      have h1 := paArray_some h
      have h2 := optMap_length pyToDict _ vs hm
      simp [h1, h2]
  · simp only [Option.some_bind] at h
    have h1 := paArray_some h
    simp [h1]

/-! ## Claims -/

/-- C1: for every Bbox in xyxy format with a 4-element coordinate list,
`to_xywh` followed by the inverse xywh-to-xyxy conversion (performed by
`to_xyxy` on the Bbox built by `from_xywh`) reproduces the original
coordinates.  The reproduction is exact over ℚ, hence in particular within
the spec's epsilon of 1e-6. -/
theorem C1_xyxy_xywh_roundtrip (b : Bbox) (hf : b._format = "xyxy")
    (hl : b._coords.length = 4) :
    Bbox.to_xyxy (Bbox.from_xywh (Bbox.to_xywh b)) = b._coords := by
  obtain ⟨x1, y1, x2, y2, hc⟩ := list_len_four hl
  simp only [Bbox.to_xywh, Bbox.from_xywh, Bbox.to_xyxy, Bbox.init, hf, hc,
    if_pos, xyxy_to_xywh, xywh_to_xyxy]
  norm_num

/-- Witness for C1 at the concrete box `Bbox([0, 0, 2, 3], 'xyxy')`. -/
theorem C1_witness :
    Bbox.to_xyxy (Bbox.from_xywh (Bbox.to_xywh (Bbox.init [0, 0, 2, 3] "xyxy" true)))
      = [0, 0, 2, 3] :=
  C1_xyxy_xywh_roundtrip (Bbox.init [0, 0, 2, 3] "xyxy" true) rfl rfl

/-- C4 counterexample: `Bbox.__init__` accepts a 3-element coordinate list
together with a format tag outside {xyxy, xywh} and stores both verbatim —
the malformed value is silently accepted, not rejected eagerly. -/
theorem C4_counterexample :
    (Bbox.init [1, 2, 3] "bogus" true)._coords = [1, 2, 3] ∧
    (Bbox.init [1, 2, 3] "bogus" true)._format = "bogus" ∧
    ([1, 2, 3] : List ℚ).length ≠ 4 ∧
    "bogus" ≠ "xyxy" ∧ "bogus" ≠ "xywh" :=
  ⟨rfl, rfl, by decide, by decide, by decide⟩

/-- C4 (amended): constructing a Bbox performs no validation at all —
`__init__` stores any coordinate list (of any length) and any format
string unchanged, so malformed values are silently accepted rather than
rejected at construction time. -/
theorem C4_no_validation : ∀ (coords : List ℚ) (format : String) (n : Bool),
    (Bbox.init coords format n)._coords = coords ∧
    (Bbox.init coords format n)._format = format ∧
    (Bbox.init coords format n)._is_normalized = n :=
  fun _ _ _ => ⟨rfl, rfl, rfl⟩

/-- C6: batch-encoding an empty list of ObjectAnnotation objects returns
the empty column mapping and does not fail. -/
theorem C6_empty_batch : from_list_to_dict [] = some [] := rfl

/-- C7: same-format conversion is idempotent — applying `format_xyxy`
twice equals applying it once (likewise `format_xywh`), and converting a
Bbox to the format it already holds changes neither coordinates nor
format. -/
theorem C7_format_idempotent :
    ∀ (b : Bbox) (c : List ℚ) (n : Bool),
      Bbox.format_xyxy (Bbox.format_xyxy b) = Bbox.format_xyxy b ∧
      Bbox.format_xywh (Bbox.format_xywh b) = Bbox.format_xywh b ∧
      Bbox.format_xyxy (Bbox.init c "xyxy" n) = Bbox.init c "xyxy" n ∧
      Bbox.format_xywh (Bbox.init c "xywh" n) = Bbox.init c "xywh" n := by
  intro b c n
  refine ⟨?_, ?_, ?_, ?_⟩
  · by_cases h : b._format = "xywh" <;> simp [Bbox.format_xyxy, h]
  · by_cases h : b._format = "xyxy" <;> simp [Bbox.format_xywh, h]
  · simp [Bbox.format_xyxy, Bbox.init]
  · simp [Bbox.format_xywh, Bbox.init]

/-- C8 counterexample: `format_xyxy` is not receiver-preserving — on a
Bbox in xywh format it changes the stored format tag (and coordinates),
i.e. the in-place conversion mutates the receiver. -/
theorem C8_counterexample :
    Bbox.format_xyxy (Bbox.init [1, 2, 3, 4] "xywh" true)
      ≠ Bbox.init [1, 2, 3, 4] "xywh" true := by
  intro h
  have hf := congrArg Bbox._format h
  simp [Bbox.format_xyxy, Bbox.init] at hf

/-- C8 (amended): the format-conversion and normalization methods mutate
the receiver in place — `format_xyxy` on an xywh box replaces the
coordinates and the format tag (preserving the normalized flag), and
symmetrically for `format_xywh`; a box already in the target format is
left unchanged; `normalize` replaces the coordinates (keeping tag and
flag); only the accessors `to_xyxy`/`to_xywh` are pure, computing a result
without touching the receiver. -/
theorem C8_mutating_conversion : ∀ (c : List ℚ) (n : Bool) (h w : ℚ),
    Bbox.format_xyxy (Bbox.init c "xywh" n) = Bbox.init (xywh_to_xyxy c) "xyxy" n ∧
    Bbox.format_xywh (Bbox.init c "xyxy" n) = Bbox.init (xyxy_to_xywh c) "xywh" n ∧
    Bbox.format_xyxy (Bbox.init c "xyxy" n) = Bbox.init c "xyxy" n ∧
    Bbox.format_xywh (Bbox.init c "xywh" n) = Bbox.init c "xywh" n ∧
    Bbox.normalize (Bbox.init c "xyxy" n) h w
      = (normalizeCoords c h w).map (fun cs => Bbox.init cs "xyxy" n) ∧
    Bbox.to_xyxy (Bbox.init c "xywh" n) = xywh_to_xyxy c ∧
    Bbox.to_xywh (Bbox.init c "xyxy" n) = xyxy_to_xywh c := by
  intro c n h w
  refine ⟨?_, ?_, ?_, ?_, rfl, ?_, ?_⟩ <;>
    simp [Bbox.format_xyxy, Bbox.format_xywh, Bbox.to_xyxy, Bbox.to_xywh,
      Bbox.init]

/-- C10: omitting the optional `bbox` and `pose` arguments of the
ObjectAnnotation constructor does not leave the fields absent: `bbox`
defaults to the plain list `[0, 0, 0, 0]` (not a Bbox instance and not
None) and `pose` defaults to the dict of nine zero rotation and three zero
translation components; Python evaluates these defaults once, so every
such construction receives the same default objects (`bboxDefault`,
`poseDefault`). -/
theorem C10_shared_defaults : ∀ (a b : PyVal),
    (ObjAnn.initDefaults a).bbox = PyVal.listNum [0, 0, 0, 0] ∧
    (ObjAnn.initDefaults a).pose
      = PyVal.poseDict (List.replicate 9 0) (List.replicate 3 0) ∧
    isCodecVal (ObjAnn.initDefaults a).bbox = false ∧
    (ObjAnn.initDefaults a).bbox ≠ PyVal.pyNone ∧
    (ObjAnn.initDefaults a).bbox = bboxDefault ∧
    (ObjAnn.initDefaults a).pose = poseDefault ∧
    (ObjAnn.initDefaults a).bbox = (ObjAnn.initDefaults b).bbox ∧
    (ObjAnn.initDefaults a).pose = (ObjAnn.initDefaults b).pose := by
  intro a b
  refine ⟨rfl, rfl, rfl, ?_, rfl, rfl, rfl, rfl⟩
  intro hco
  simp [ObjAnn.initDefaults, ObjAnn.init, bboxDefault] at hco

/-- Every column built from a one-element list succeeds: a singleton cell
list never mixes kinds, and the codec branch's `to_dict` succeeds exactly
when the (single, first) value is a codec instance. -/
theorem buildColumn_singleton (o : ObjAnn) (attr : String) :
    (buildColumn [o] attr).isSome := by
  simp only [buildColumn, List.map_cons, List.map_nil, List.headD_cons]
  cases hv : getattr o attr <;>
    simp [isCodecVal, optMap, pyToDict, paArray, kindsOk, isPyNone, kindOf,
      Bbox.to_dict, Pose.to_dict, CompressedRLE.to_dict]

/-- C5: the `Image.bytes` content accessor resolves stored bytes first —
when `_bytes` is present it is returned untouched, for any state of the
file system, so the URI is not read — then lazily-read URI content; when
neither URI nor bytes is present, `bytes` returns None and `url` returns
the empty string, and neither accessor raises (both are total). -/
theorem C5_image_content (img : Image) (readF : String → List Nat) :
    (∀ bs, img._bytes = some bs → Image.bytes img readF = some bs) ∧
    (∀ u, img._bytes = Option.none → img._uri = some u →
      Image.bytes img readF = some (readF (Image.openPath img u))) ∧
    (img._bytes = Option.none → img._uri = Option.none →
      Image.bytes img readF = Option.none ∧ Image.url img readF = "") := by
  refine ⟨?_, ?_, ?_⟩
  · intro bs h
    simp [Image.bytes, h]
  · intro u hb hu
    simp [Image.bytes, hb, hu]
  · intro hb hu
    have hbts : Image.bytes img readF = Option.none := by
      simp [Image.bytes, hb, hu]
    exact ⟨hbts, by simp [Image.url, hbts]⟩

/-- Witness for C5 at the concrete image with no URI, no bytes and no
preview. -/
theorem C5_witness :
    Image.bytes ⟨Option.none, Option.none, Option.none, Option.none⟩
        (fun _ => []) = Option.none ∧
    Image.url ⟨Option.none, Option.none, Option.none, Option.none⟩
        (fun _ => []) = "" :=
  (C5_image_content ⟨Option.none, Option.none, Option.none, Option.none⟩
      (fun _ => [])).2.2 rfl rfl

/-- C9: when the preview bytes are absent, `Image.preview_url` does not
return an empty or absent URL — it raises (`base64.b64encode(None)` throws
`TypeError`, modelled by `Option.none`), unlike `Image.url`, which returns
`""` for an image with no content in the same situation. -/
theorem C9_preview_url_fails (img : Image)
    (h : img._preview_bytes = Option.none) :
    Image.preview_url img = Option.none ∧
    (img._bytes = Option.none → img._uri = Option.none →
      ∀ readF, Image.url img readF = "") := by
  constructor
  · simp [Image.preview_url, h]
  · intro hb hu readF
    simp [Image.url, Image.bytes, hb, hu]

/-- Witness for C9 at the concrete image with no preview bytes (and no
content at all). -/
theorem C9_witness :
    Image.preview_url ⟨Option.none, Option.none, Option.none, Option.none⟩
        = Option.none ∧
    Image.url ⟨Option.none, Option.none, Option.none, Option.none⟩
        (fun _ => [1, 2, 3]) = "" := by
  have h := C9_preview_url_fails
    ⟨Option.none, Option.none, Option.none, Option.none⟩ rfl
  exact ⟨h.1, h.2 rfl rfl (fun _ => [1, 2, 3])⟩

/-- C2: a row whose nullable nested cells (bbox, mask) are null decodes
without a crash (`as_py` is total) to an object whose corresponding fields
are None; and an ObjectAnnotation with bbox and mask absent batch-encodes
to columns in which both nested cells are null. -/
theorem C2_null_nested_fields (r : ObjAnnRow) (hb : r.bbox = Option.none)
    (hm : r.mask = Option.none) :
    (ObjAnnRow.as_py r).bbox = PyVal.pyNone ∧
    (ObjAnnRow.as_py r).mask = PyVal.pyNone ∧
    ∀ (o : ObjAnn), o.bbox = PyVal.pyNone → o.mask = PyVal.pyNone →
      ∃ cols, from_list_to_dict [o] = some cols ∧
        ("bbox", [PyVal.pyNone]) ∈ cols ∧ ("mask", [PyVal.pyNone]) ∈ cols := by
  refine ⟨?_, ?_, ?_⟩
  · simp [ObjAnnRow.as_py, ObjAnn.init, cellBbox, hb]
  · simp [ObjAnnRow.as_py, ObjAnn.init, cellRLE, hm]
  · intro o hob hom
    have hsome : (optMap
        (fun attr => (buildColumn [o] attr).map (fun col => (attr, col)))
        attrNames).isSome := by
      apply optMap_isSome
      intro attr _
      have h1 := buildColumn_singleton o attr
      cases h2 : buildColumn [o] attr with
      | none => rw [h2] at h1; simp at h1
      | some col => simp [h2]
    obtain ⟨cols, hc⟩ := Option.isSome_iff_exists.mp hsome
    have hfl : from_list_to_dict [o] = some cols := by
      unfold from_list_to_dict
      simpa using hc
    have hbcol : buildColumn [o] "bbox" = some [PyVal.pyNone] := by
      simp [buildColumn, getattr, hob, isCodecVal, paArray, kindsOk,
        isPyNone, optMap]
    have hmcol : buildColumn [o] "mask" = some [PyVal.pyNone] := by
      simp [buildColumn, getattr, hom, isCodecVal, paArray, kindsOk,
        isPyNone, optMap]
    obtain ⟨cb, hcbmem, hcb⟩ :=
      optMap_pairs_mem _ attrNames cols hc "bbox" (by simp [attrNames])
    obtain ⟨cm, hcmmem, hcm⟩ :=
      optMap_pairs_mem _ attrNames cols hc "mask" (by simp [attrNames])
    rw [hbcol] at hcb
    rw [hmcol] at hcm
    refine ⟨cols, hfl, ?_, ?_⟩
    · obtain rfl := Option.some_inj.mp hcb
      exact hcbmem
    · obtain rfl := Option.some_inj.mp hcm
      exact hcmmem

/-- Witness for C2 at a concrete all-null row and a concrete annotation
with bbox and mask absent. -/
theorem C2_witness :
    ∃ cols, from_list_to_dict
        [ObjAnn.init (PyVal.str "a") PyVal.pyNone PyVal.pyNone PyVal.pyNone
          PyVal.pyNone PyVal.pyNone PyVal.pyNone PyVal.pyNone PyVal.pyNone
          PyVal.pyNone PyVal.pyNone PyVal.pyNone PyVal.pyNone PyVal.pyNone
          PyVal.pyNone] = some cols ∧
      ("bbox", [PyVal.pyNone]) ∈ cols ∧ ("mask", [PyVal.pyNone]) ∈ cols :=
  (C2_null_nested_fields
      ⟨some "a", Option.none, Option.none, Option.none, Option.none,
       Option.none, Option.none, Option.none, Option.none, Option.none,
       Option.none, Option.none, Option.none, Option.none, Option.none⟩
      rfl rfl).2.2
    (ObjAnn.init (PyVal.str "a") PyVal.pyNone PyVal.pyNone PyVal.pyNone
      PyVal.pyNone PyVal.pyNone PyVal.pyNone PyVal.pyNone PyVal.pyNone
      PyVal.pyNone PyVal.pyNone PyVal.pyNone PyVal.pyNone PyVal.pyNone
      PyVal.pyNone) rfl rfl

/-- C3 counterexample: two annotations sharing the (fixed) attribute set
of the first — the first holding a Bbox instance in `bbox`, the second
None.  The codec branch, chosen because the first value is a codec
instance, calls `.to_dict()` on every value including the None, which
raises `AttributeError`; the batch encoding therefore fails instead of
producing length-2 columns, refuting the claim as stated. -/
theorem C3_counterexample :
    from_list_to_dict
      [ObjAnn.init (PyVal.str "a") PyVal.pyNone
         (PyVal.bboxObj (Bbox.init [1, 2, 3, 4] "xyxy" true)) PyVal.pyNone
         PyVal.pyNone PyVal.pyNone PyVal.pyNone PyVal.pyNone PyVal.pyNone
         PyVal.pyNone PyVal.pyNone PyVal.pyNone PyVal.pyNone PyVal.pyNone
         PyVal.pyNone,
       ObjAnn.init (PyVal.str "b") PyVal.pyNone PyVal.pyNone PyVal.pyNone
         PyVal.pyNone PyVal.pyNone PyVal.pyNone PyVal.pyNone PyVal.pyNone
         PyVal.pyNone PyVal.pyNone PyVal.pyNone PyVal.pyNone PyVal.pyNone
         PyVal.pyNone] = Option.none := by
  rfl

/-- C3 (amended): for every non-empty list of N ObjectAnnotation objects
sharing the attribute set of the first element and in which every
attribute column builds successfully (i.e. whenever the first element's
value for an attribute is a codec instance, every element's value for that
attribute supports `to_dict`, and the resulting cells do not mix types),
batch encoding produces one column of length N per attribute name, with
the attribute set determined solely from the first element. -/
theorem C3_batch_columns (l : List ObjAnn) (hne : l ≠ [])
    (hcols : ∀ attr ∈ attrNames, (buildColumn l attr).isSome) :
    ∃ cols, from_list_to_dict l = some cols ∧
      cols.map Prod.fst = attrNames ∧
      ∀ p ∈ cols, (p.2).length = l.length := by
  have hsome : (optMap
      (fun attr => (buildColumn l attr).map (fun col => (attr, col)))
      attrNames).isSome := by
    apply optMap_isSome
    intro attr ha
    have h1 := hcols attr ha
    cases h2 : buildColumn l attr with
    | none => rw [h2] at h1; simp at h1
    | some col => simp [h2]
  obtain ⟨cols, hc⟩ := Option.isSome_iff_exists.mp hsome
  have hlen : ¬(l.length = 0) := fun h0 => hne (List.length_eq_zero.mp h0)
  refine ⟨cols, ?_, optMap_pairs_fst _ attrNames cols hc, ?_⟩
  · unfold from_list_to_dict
    rw [if_neg hlen]
    exact hc
  · intro p hp
    exact buildColumn_length (optMap_pairs_col _ attrNames cols hc p hp)

/-- Witness for C3 at a concrete two-element list whose `bbox` values are
both Bbox instances (exercising the codec branch) and whose other
attributes are type-homogeneous. -/
theorem C3_witness :
    ∃ cols, from_list_to_dict
        [ObjAnn.init (PyVal.str "a") PyVal.pyNone
           (PyVal.bboxObj (Bbox.init [1, 2, 3, 4] "xyxy" true)) PyVal.pyNone
           PyVal.pyNone PyVal.pyNone PyVal.pyNone PyVal.pyNone PyVal.pyNone
           PyVal.pyNone PyVal.pyNone PyVal.pyNone PyVal.pyNone PyVal.pyNone
           PyVal.pyNone,
         ObjAnn.init (PyVal.str "b") PyVal.pyNone
           (PyVal.bboxObj (Bbox.init [5, 6, 7, 8] "xywh" false)) PyVal.pyNone
           PyVal.pyNone PyVal.pyNone PyVal.pyNone PyVal.pyNone PyVal.pyNone
           PyVal.pyNone PyVal.pyNone PyVal.pyNone PyVal.pyNone PyVal.pyNone
           PyVal.pyNone] = some cols ∧
      cols.map Prod.fst = attrNames ∧
      ∀ p ∈ cols, (p.2).length = 2 :=
  C3_batch_columns _ (by simp) (by decide)
